import Mathlib

/-!
Shallow embedding of the round-processing pipeline of the Tech-Abir/tds-project-1
repository (files `app/main.py`, `app/llm_generator.py`, `app/github_utils.py`),
together with theorems settling the frozen claims about it.

External library primitives (base64 decoding, UTF-8 decoding of byte buffers) and
the outcomes of network / filesystem calls (GitHub API, AI Pipe, notifier, local
file reads) are modelled as explicit parameters, so every definition is a pure,
executable Lean function of the request data and of those outcomes.
-/

namespace TDS

/-- Pure library primitives used by `llm_generator.py`: `base64.b64decode`
(raising is modelled as `none`) and `bytes.decode("utf-8", errors="ignore")`
(total by construction). -/
structure PyLib where
  b64decode : String → Option (List Nat)
  utf8decode : List Nat → String

/-- One entry of the inbound `attachments` list: a JSON object whose `name` and
`url` keys may each be absent. -/
structure Attachment where
  name : Option String
  url : Option String
deriving DecidableEq

/-- The dict appended to `saved` by `decode_attachments` (llm_generator.py:30),
plus `data`, which models the bytes written to `path` on disk. -/
structure SavedAtt where
  name : String
  path : String
  mime : String
  size : Nat
  data : List Nat
deriving DecidableEq

/-! Structurally recursive models of the Python string primitives the source
uses (`split`, `startswith`, `endswith`, `strip`, `replace`, `join`, slicing).
A Python `str` is modelled through the character list `String.data`. -/

/-- Split a character list at the first occurrence of `sep`: the part before it
and the part after it, or `none` when `sep` does not occur (for a non-empty
`sep`). -/
def splitFirst (sep : List Char) : List Char → Option (List Char × List Char)
  | [] => none
  | c :: rest =>
    if sep.isPrefixOf (c :: rest) then some ([], (c :: rest).drop sep.length)
    else match splitFirst sep rest with
      | none => none
      | some (a, b) => some (c :: a, b)

/-- Python's `s.startswith(pre)`. -/
def strStartsWith (s pre : String) : Bool := pre.data.isPrefixOf s.data

/-- Python's `s.endswith(suf)`. -/
def strEndsWith (s suf : String) : Bool := suf.data.isSuffixOf s.data

/-- Python's `s.strip()`: drop whitespace from both ends. -/
def stripPy (s : String) : String :=
  ⟨((s.data.dropWhile Char.isWhitespace).reverse.dropWhile Char.isWhitespace).reverse⟩

/-- Python's `s.replace(pat, rep)` for a non-empty `pat`, fuelled by the length
of the subject so the recursion is structural; `fuel ≥ s.length` always holds
at the call sites. -/
def replaceFuel (pat rep : List Char) : Nat → List Char → List Char
  | _, [] => []
  | 0, l => l
  | fuel + 1, c :: rest =>
    if pat.isPrefixOf (c :: rest) then
      rep ++ replaceFuel pat rep fuel ((c :: rest).drop pat.length)
    else c :: replaceFuel pat rep fuel rest

/-- Python's `s.replace(pat, rep)`. -/
def replacePy (s pat rep : String) : String :=
  ⟨replaceFuel pat.data rep.data s.data.length s.data⟩

/-- Python's `s.split(sep)[0]`: the part before the first occurrence of `sep`,
or all of `s` when `sep` does not occur. -/
def splitHead (sep s : String) : String :=
  match splitFirst sep.data s.data with
  | none => s
  | some (a, _) => ⟨a⟩

/-- Python's `sep.join(xs)`. -/
def joinPy (sep : String) : List String → String
  | [] => ""
  | [x] => x
  | x :: y :: xs => x ++ sep ++ joinPy sep (y :: xs)

/-- Python's `s[:n]`. -/
def takePy (s : String) (n : Nat) : String := ⟨s.data.take n⟩

/-- Python's `text.split(sep, 1)` when it yields two parts, i.e. when `sep`
occurs in `text`: the part before the first occurrence and everything after
it. `none` models the `ValueError` raised when unpacking a 1-element split. -/
def splitOnce (text sep : String) : Option (String × String) :=
  match splitFirst sep.data text.data with
  | none => none
  | some (a, b) => some (⟨a⟩, ⟨b⟩)

/-- The body of the loop in `decode_attachments` (llm_generator.py:18-32) for a
single attachment: `none` when the entry is skipped (url absent or not a
`data:` URI, no comma to unpack, or `b64decode` raising — all caught). -/
def decodeOne (lib : PyLib) (att : Attachment) : Option SavedAtt :=
  -- att.get("name") or "attachment": Python `or` also replaces an empty string
  let name := match att.name with
    | none => "attachment"
    | some "" => "attachment"
    | some s => s
  let url := att.url.getD ""
  if strStartsWith url "data:" then
    match splitOnce url "," with
    | none => none
    | some (header, b64data) =>
      let mime := replacePy (splitHead ";" header) "data:" ""
      match lib.b64decode b64data with
      | none => none
      | some bytes =>
        some { name := name, path := "/tmp/llm_attachments/" ++ name, mime := mime,
               size := bytes.length, data := bytes }
  else none

/-- `decode_attachments` (llm_generator.py:16-33): decodes inline `data:` URIs,
appending one saved entry per successfully decoded attachment, in order. -/
def decode_attachments (lib : PyLib) (attachments : List Attachment) : List SavedAtt :=
  attachments.filterMap (decodeOne lib)

/-- `summarize_attachment_meta` (llm_generator.py:35-50). The file read at
`s.path` is modelled by the bytes `s.data` that `decode_attachments` wrote
there; the per-entry read is modelled as succeeding. Note the source joins and
escapes with the two-character literal backslash-n (`"\\n"`), not a newline. -/
def summarize_attachment_meta (lib : PyLib) (saved : List SavedAtt) : String :=
  let summaries := saved.map (fun s =>
    let nm := s.name
    let mime := s.mime
    if strStartsWith mime "text" || strEndsWith nm ".md" || strEndsWith nm ".txt"
        || strEndsWith nm ".json" || strEndsWith nm ".csv" then
      let preview := takePy (replacePy (takePy (lib.utf8decode s.data) 1000) "\n" "\\n") 1000
      "- " ++ nm ++ " (" ++ mime ++ "): preview: " ++ preview
    else
      "- " ++ nm ++ " (" ++ mime ++ "): " ++ toString s.size ++ " bytes")
  joinPy "\\n" summaries

/-- `_strip_code_block` (llm_generator.py:55-60): if a triple-backtick fence
occurs, return the stripped `parts[1]` of the full split — the characters
between the first fence and the next one (or the end) — else the stripped
text. -/
def strip_code_block (text : String) : String :=
  match splitFirst ("```").data text.data with
  | none => stripPy text
  | some (_, after) =>
    match splitFirst ("```").data after with
    | none => stripPy ⟨after⟩
    | some (middle, _) => stripPy ⟨middle⟩

/-- `generate_readme_fallback` (llm_generator.py:62-81). -/
def generate_readme_fallback (brief : String) (checks : List String)
    (attachments_meta : String) (round_num : Nat) : String :=
  let checks_text := joinPy "\\n" checks
  let att_text := attachments_meta
  "# Auto-generated README (Round " ++ toString round_num ++ ")\n\n**Project brief:** "
    ++ brief ++ "\n\n**Attachments:**\n" ++ att_text ++ "\n\n**Checks to meet:**\n"
    ++ checks_text
    ++ "\n\n## Setup\n1. Open `index.html` in a browser.\n2. No build steps required.\n\n"
    ++ "## Notes\nThis README was generated as a fallback (AI Pipe did not return an explicit README).\n"

/-- The hard-coded fallback text assigned when the AI Pipe call fails
(llm_generator.py:153-164). -/
def fallbackText (brief : String) (checks : List String) (attachments_meta : String)
    (round_num : Nat) : String :=
  "\n<html>\n  <head><title>Fallback App</title></head>\n  <body>\n    <h1>Hello (fallback)</h1>\n    <p>This app was generated as a fallback because AI Pipe failed. Brief: "
    ++ brief ++ "</p>\n  </body>\n</html>\n\n---README.md---\n"
    ++ generate_readme_fallback brief checks attachments_meta round_num ++ "\n"

/-- The value returned by `generate_app_code` (llm_generator.py:188): the files
mapping (as an ordered association list, mirroring the Python dict literal) and
the saved attachments. -/
structure GenResult where
  files : List (String × String)
  attachments : List SavedAtt
deriving DecidableEq

/-- `generate_app_code` (llm_generator.py:86-188). `serviceText` models the
outcome of the AI Pipe POST together with the `output[1].content[0].text`
extraction: `none` is any network / HTTP-status / JSON failure, `some t` the
extracted text (`""` when the expected blocks are absent, which the source
turns into the same fallback by raising `ValueError`). The prompt string is
built only to be sent to the external service, so it is not reproduced here;
the local mirror writes to `./generated_app` are modelled as succeeding. -/
def generate_app_code (lib : PyLib) (serviceText : Option String) (brief : String)
    (attachments : List Attachment) (checks : List String) (round_num : Nat)
    (prev_readme : Option String) : GenResult :=
  let _ := prev_readme  -- feeds only the prompt sent to the external service
  let saved := decode_attachments lib attachments
  let attachments_meta := summarize_attachment_meta lib saved
  let text := match serviceText with
    | some t => if t = "" then fallbackText brief checks attachments_meta round_num else t
    | none => fallbackText brief checks attachments_meta round_num
  let parts := match splitOnce text "---README.md---" with
    | some (c, r) => (strip_code_block c, strip_code_block r)
    | none => (strip_code_block text, generate_readme_fallback brief checks attachments_meta round_num)
  { files := [("index.html", parts.1), ("README.md", parts.2)], attachments := saved }

/-- `enable_pages` (github_utils.py:94-115), as a function of the HTTP status
code of the Pages API call (`none` models a raised exception): `True` exactly
for status 201, 204 or 202. -/
def enable_pages (status : Option Nat) : Bool :=
  match status with
  | some code => code == 201 || code == 204 || code == 202
  | none => false

/-- The derived public Pages URL `https://USERNAME.github.io/task_id/`
(main.py:120 and main.py:122). -/
def ghPagesUrl (username task_id : String) : String :=
  "https://" ++ username ++ ".github.io/" ++ task_id ++ "/"

/-- The payload dict assembled at main.py:133-141 and stored in the Ledger:
the Round Outcome. -/
structure Payload where
  email : String
  task : String
  round : Nat
  nonce : String
  repo_url : String
  commit_sha : Option String
  pages_url : Option String
deriving DecidableEq

/-- Externally visible side-effecting calls made by the intake handler and the
pipeline: file commits against the repository host (`create_or_update_file` /
`create_or_update_binary_file`), the Pages activation call (`enable_pages`),
the notifier POST (`notify_evaluation_server`, app/notify.py — an external
best-effort delivery per the spec), and the Ledger write (`save_processed`). -/
inductive Event where
  | commitText (path : String)
  | commitBinary (path : String)
  | publishCall (repoName : String)
  | notifyCall (url : Option String) (payload : Payload)
  | ledgerWrite (key : String) (payload : Payload)
deriving DecidableEq

/-- The persisted `/tmp/processed_requests.json` mapping, as an ordered
association list (Python dicts preserve insertion order). -/
def Ledger : Type := List (String × Payload)

instance : DecidableEq Ledger := inferInstanceAs (DecidableEq (List (String × Payload)))

/-- Python `key in processed` / `processed[key]` lookup. -/
def ledgerLookup (l : Ledger) (key : String) : Option Payload :=
  match l with
  | [] => none
  | (k, v) :: rest => if k = key then some v else ledgerLookup rest key

/-- Python `processed[key] = payload`: replace in place, or append. -/
def ledgerInsert (l : Ledger) (key : String) (v : Payload) : Ledger :=
  match l with
  | [] => [(key, v)]
  | (k, w) :: rest =>
    if k = key then (key, v) :: rest else (k, w) :: ledgerInsert rest key v

/-- The identity key `f"{email}::{task}::round{round}::nonce{nonce}"` computed
at main.py:184 and main.py:150. -/
def mkKeyS (email task : String) (round : Nat) (nonce : String) : String :=
  email ++ "::" ++ task ++ "::round" ++ toString round ++ "::nonce" ++ nonce

/-- Process-level configuration read from the environment at import time
(main.py:18-19). `USER_SECRET` may be unset, hence `Option`. -/
structure Config where
  user_secret : Option String
  username : String
deriving DecidableEq

/-- The inbound JSON body. Each required key may be absent (`none`); accessing
an absent key with `data["k"]` raises `KeyError`, while `data.get` substitutes
a default. `round` is modelled as the natural number the spec requires. -/
structure ReqData where
  secret : Option String
  email : Option String
  task : Option String
  round : Option Nat
  nonce : Option String
  brief : Option String
  attachments : List Attachment
  checks : List String
  evaluation_url : Option String
deriving DecidableEq

/-- The repository handle returned by `create_repo`; only its `html_url`
attribute is consumed by the pipeline. -/
structure RepoH where
  html_url : String
deriving DecidableEq

/-- Outcomes of the external calls made during one `process_request` run.
`none` models the call raising an exception. `notifyOk` is the notifier
outcome; the `except` at main.py:145-146 discards it, which is what the
theorems about dispatch quantify over. -/
structure PipeEnv where
  repoResult : Option RepoH
  readmeContents : Option String
  genResponse : Option String
  pagesStatus : Option Nat
  latestSha : Option String
  notifyOk : Bool
deriving DecidableEq

/-- How one background `process_request` run ended: an uncaught exception
(`raised`), the early `return` after a failed repository acquisition
(`aborted`), or completion with the assembled Round Outcome (`completed`). -/
inductive ProcOutcome where
  | raised (msg : String)
  | aborted
  | completed (payload : Payload)
deriving DecidableEq

/-- The observable result of one `process_request` run: the external calls it
attempted, in order, the Ledger state it leaves behind, and how it ended. -/
structure ProcResult where
  events : List Event
  ledger : Ledger
  outcome : ProcOutcome

/-- The commit calls attempted for one saved attachment (main.py:83-96): a text
commit for text-like attachments, else a binary commit plus a `.b64` backup
text commit. The local file read at main.py:85 is modelled as succeeding, and
each `create_or_update` call is an attempted event whether or not the host
rejects it (the `except` at main.py:95 isolates any failure). -/
def commitAttachmentEvents (att : SavedAtt) : List Event :=
  if strStartsWith att.mime "text" || strEndsWith att.name ".md" || strEndsWith att.name ".csv"
      || strEndsWith att.name ".json" || strEndsWith att.name ".txt" then
    [Event.commitText ("attachments/" ++ att.name)]
  else
    [Event.commitBinary ("attachments/" ++ att.name),
     Event.commitText ("attachments/" ++ att.name ++ ".b64")]

/-- `process_request` (main.py:40-154), the background pipeline. Stage order:
decode attachments, acquire repository (fatal on failure — note that the
`data['brief']` lookup of main.py:51 sits inside the same `try`, so a missing
`brief` is caught there too), fetch the prior README on round 2, generate,
commit attachments (round 1 only), commit generated files, commit LICENSE,
enable Pages (round 1) or assume the URL, read the latest commit sha, notify,
and persist the payload to the Ledger. `data["task"]` (main.py:42) and
`data["email"]` / `data["nonce"]` (main.py:134-137) are accessed outside any
`try`, so their absence raises out of the background task. -/
def process_request (cfg : Config) (lib : PyLib) (env : PipeEnv) (ledger : Ledger)
    (d : ReqData) : ProcResult :=
  let round_num := d.round.getD 1
  match d.task with
  | none => ⟨[], ledger, .raised "KeyError: task"⟩
  | some task_id =>
    match d.brief with
    | none => ⟨[], ledger, .aborted⟩
    | some brief =>
      match env.repoResult with
      | none => ⟨[], ledger, .aborted⟩
      | some repo =>
        let prev_readme := if round_num == 2 then env.readmeContents else none
        let gen := generate_app_code lib env.genResponse brief d.attachments d.checks
          round_num prev_readme
        let files := gen.files
        let saved_info := gen.attachments
        let attEvents :=
          if round_num == 1 then saved_info.flatMap commitAttachmentEvents else []
        let fileEvents := files.map (fun fc => Event.commitText fc.1)
        let pages : List Event × Option String :=
          if round_num == 1 then
            ([Event.publishCall task_id],
             if enable_pages env.pagesStatus then some (ghPagesUrl cfg.username task_id)
             else none)
          else
            ([], some (ghPagesUrl cfg.username task_id))
        let commit_sha := env.latestSha
        let preEvents := attEvents ++ fileEvents ++ [Event.commitText "LICENSE"] ++ pages.1
        match d.email with
        | none => ⟨preEvents, ledger, .raised "KeyError: email"⟩
        | some email =>
          match d.nonce with
          | none => ⟨preEvents, ledger, .raised "KeyError: nonce"⟩
          | some nonce =>
            let payload : Payload :=
              { email := email, task := task_id, round := round_num, nonce := nonce,
                repo_url := repo.html_url, commit_sha := commit_sha,
                pages_url := pages.2 }
            let key := mkKeyS email task_id round_num nonce
            ⟨preEvents ++ [Event.notifyCall d.evaluation_url payload,
                           Event.ledgerWrite key payload],
             ledgerInsert ledger key payload, .completed payload⟩

/-- The JSON bodies returned by the `/api-endpoint` handler (HTTP 200 in all
cases). -/
inductive Resp where
  | errorResp (error : String)
  | okNote (status : String) (note : String)
deriving DecidableEq

/-- What one `receive_request` call produced: the response body, the external
calls it made itself, and whether it scheduled a background
`process_request` run. -/
structure HandlerResult where
  resp : Resp
  events : List Event
  scheduled : Bool
deriving DecidableEq

/-- `receive_request` (main.py:172-199), the intake handler. `Except.error`
models an exception escaping the handler (FastAPI turns it into an HTTP 500);
`notifyOk` is the outcome of the best-effort re-notification, caught at
main.py:191-192. -/
def receive_request (cfg : Config) (ledger : Ledger) (notifyOk : Bool) (d : ReqData) :
    Except String HandlerResult :=
  let _ := notifyOk  -- discarded by the except at main.py:191-192
  if d.secret ≠ cfg.user_secret then
    .ok ⟨.errorResp "Invalid secret", [], false⟩
  else
    match d.email with
    | none => .error "KeyError: email"
    | some email =>
    match d.task with
    | none => .error "KeyError: task"
    | some task =>
    match d.round with
    | none => .error "KeyError: round"
    | some round =>
    match d.nonce with
    | none => .error "KeyError: nonce"
    | some nonce =>
      let key := mkKeyS email task round nonce
      match ledgerLookup ledger key with
      | some prev =>
        .ok ⟨.okNote "ok" "duplicate handled & re-notified",
             [Event.notifyCall d.evaluation_url prev], false⟩
      | none =>
        .ok ⟨.okNote "accepted" ("processing round " ++ toString round ++ " started"),
             [], true⟩

/-! Decimal rendering of `Nat`, for reasoning about the `round` component of the
identity key: `Nat.repr` is related to a structurally recursive rendering, whose
characters are digits and which is injective. -/

/-- Structurally recursive decimal rendering, equal to core's fuelled
`Nat.toDigitsCore 10`. -/
def decDigits (n : Nat) : List Char :=
  if _h : n < 10 then [Nat.digitChar n]
  else decDigits (n / 10) ++ [Nat.digitChar (n % 10)]
decreasing_by exact Nat.div_lt_self (by omega) (by omega)

theorem decDigits_eq (n : Nat) :
    decDigits n =
      if n < 10 then [Nat.digitChar n]
      else decDigits (n / 10) ++ [Nat.digitChar (n % 10)] := by
  rw [decDigits]
  by_cases h : n < 10 <;> simp [h]

theorem toDigitsCore_eq_decDigits :
    ∀ (fuel n : Nat) (acc : List Char), n < fuel →
      Nat.toDigitsCore 10 fuel n acc = decDigits n ++ acc := by
  intro fuel
  induction fuel with
  | zero => intro n acc h; omega
  | succ f ih =>
    intro n acc h
    rw [Nat.toDigitsCore]
    by_cases h10 : n / 10 = 0
    · have hn10 : n < 10 := by omega
      rw [decDigits_eq]
      simp [h10, hn10, Nat.mod_eq_of_lt hn10]
    · have hdiv : n / 10 < n := Nat.div_lt_self (by omega) (by omega)
      rw [if_neg h10, ih (n / 10) _ (by omega)]
      conv_rhs => rw [decDigits_eq n]
      have hn10 : ¬ n < 10 := by omega
      simp [hn10]

theorem repr_eq_decDigits (n : Nat) : Nat.repr n = (decDigits n).asString := by
  show (Nat.toDigits 10 n).asString = (decDigits n).asString
  rw [show Nat.toDigits 10 n = Nat.toDigitsCore 10 (n + 1) n [] from rfl,
    toDigitsCore_eq_decDigits (n + 1) n [] (by omega), List.append_nil]

theorem digitChar_isDigit {k : Nat} (h : k < 10) : (Nat.digitChar k).isDigit := by
  interval_cases k <;> decide

theorem digitChar_inj_lt10 {a b : Nat} (ha : a < 10) (hb : b < 10)
    (h : Nat.digitChar a = Nat.digitChar b) : a = b := by
  interval_cases a <;> interval_cases b <;>
    first
    | rfl
    | exact absurd h (by decide)

theorem decDigits_isDigit : ∀ (n : Nat), ∀ c ∈ decDigits n, c.isDigit := by
  intro n
  induction n using Nat.strong_induction_on with
  | _ n ih =>
    rw [decDigits_eq]
    by_cases h : n < 10
    · simp only [h, if_pos, List.mem_singleton]
      intro c hc; subst hc; exact digitChar_isDigit h
    · rw [if_neg h]
      intro c hc
      rcases List.mem_append.mp hc with hc | hc
      · exact ih (n / 10) (Nat.div_lt_self (by omega) (by omega)) c hc
      · rw [List.mem_singleton] at hc
        subst hc; exact digitChar_isDigit (Nat.mod_lt n (by omega))

theorem decDigits_ne_nil (n : Nat) : decDigits n ≠ [] := by
  rw [decDigits_eq]
  by_cases h : n < 10 <;> simp [h]

theorem decDigits_inj : ∀ (m n : Nat), decDigits m = decDigits n → m = n := by
  intro m
  induction m using Nat.strong_induction_on with
  | _ m ih =>
    intro n h
    rw [decDigits_eq m, decDigits_eq n] at h
    by_cases hm : m < 10 <;> by_cases hn : n < 10
    · rw [if_pos hm, if_pos hn] at h
      simp only [List.cons.injEq] at h
      exact digitChar_inj_lt10 hm hn h.1
    · rw [if_pos hm, if_neg hn] at h
      have hlen := congrArg List.length h
      have hne := decDigits_ne_nil (n / 10)
      cases hd : decDigits (n / 10) with
      | nil => exact absurd hd hne
      | cons a l => rw [hd] at hlen; simp [List.length_append] at hlen
    · rw [if_neg hm, if_pos hn] at h
      have hlen := congrArg List.length h
      have hne := decDigits_ne_nil (m / 10)
      cases hd : decDigits (m / 10) with
      | nil => exact absurd hd hne
      | cons a l => rw [hd] at hlen; simp [List.length_append] at hlen
    · rw [if_neg hm, if_neg hn] at h
      obtain ⟨h1, h2⟩ := List.append_inj' h (by simp)
      simp only [List.cons.injEq] at h2
      have hq : m / 10 = n / 10 :=
        ih (m / 10) (Nat.div_lt_self (by omega) (by omega)) (n / 10) h1
      have hr : m % 10 = n % 10 :=
        digitChar_inj_lt10 (Nat.mod_lt m (by omega)) (Nat.mod_lt n (by omega)) h2.1
      omega

theorem repr_inj {m n : Nat} (h : Nat.repr m = Nat.repr n) : m = n := by
  rw [repr_eq_decDigits, repr_eq_decDigits] at h
  exact decDigits_inj m n (List.asString_inj.mp h)

theorem colon_not_mem_repr (n : Nat) : ':' ∉ (Nat.repr n).data := by
  rw [repr_eq_decDigits]
  have : (decDigits n).asString.data = decDigits n := List.toList_asString (decDigits n)
  rw [this]
  intro hmem
  exact absurd (decDigits_isDigit n ':' hmem) (by decide)

/-- Cancellation around a separator character occurring in neither prefix: the
decomposition of a list at such a separator is unique. -/
theorem sep_append_inj {c : Char} :
    ∀ {a a' b b' : List Char}, c ∉ a → c ∉ a' →
      a ++ c :: b = a' ++ c :: b' → a = a' ∧ b = b' := by
  intro a
  induction a with
  | nil =>
    intro a' b b' _ ha' h
    cases a' with
    | nil => simpa using h
    | cons x xs =>
      simp only [List.nil_append, List.cons_append, List.cons.injEq] at h
      exact absurd (h.1 ▸ List.mem_cons_self x xs) (h.1 ▸ ha')
  | cons x xs ih =>
    intro a' b b' ha ha' h
    cases a' with
    | nil =>
      simp only [List.nil_append, List.cons_append, List.cons.injEq] at h
      exact absurd (h.1 ▸ List.mem_cons_self x xs) (fun hm => ha (h.1 ▸ hm))
    | cons y ys =>
      simp only [List.cons_append, List.cons.injEq] at h
      obtain ⟨hxy, htail⟩ := h
      have := ih (fun hm => ha (List.mem_cons_of_mem x hm))
        (fun hm => ha' (hxy ▸ List.mem_cons_of_mem y hm)) htail
      exact ⟨by rw [hxy, this.1], this.2⟩

theorem data_sep : ("::" : String).data = [':', ':'] := by decide

theorem data_round : ("::round" : String).data = [':', ':', 'r', 'o', 'u', 'n', 'd'] := by
  decide

theorem data_nonce : ("::nonce" : String).data = [':', ':', 'n', 'o', 'n', 'c', 'e'] := by
  decide

theorem mkKeyS_data (e t : String) (r : Nat) (n : String) :
    (mkKeyS e t r n).data =
      e.data ++ ':' :: ':' :: (t.data ++ ':' :: ':' :: ('r' :: 'o' :: 'u' :: 'n' :: 'd' ::
        ((Nat.repr r).data ++ ':' :: ':' :: ('n' :: 'o' :: 'n' :: 'c' :: 'e' ::
          n.data)))) := by
  show (e ++ "::" ++ t ++ "::round" ++ toString r ++ "::nonce" ++ n).data = _
  rw [show (toString r : String) = Nat.repr r from rfl]
  simp only [String.data_append, data_sep, data_round, data_nonce, List.append_assoc,
    List.cons_append, List.nil_append]

/-! Concrete sample inputs, used to instantiate the theorems below. -/

/-- A trivial instantiation of the library primitives. -/
def lib0 : PyLib := ⟨fun _ => none, fun _ => ""⟩

def cfgW : Config := ⟨some "s3cret", "user"⟩

def payloadW : Payload :=
  ⟨"e@x", "t1", 1, "n1", "https://github.com/user/t1", some "abc", none⟩

def ledgerW : Ledger := [(mkKeyS "e@x" "t1" 1 "n1", payloadW)]

def reqW : ReqData :=
  ⟨some "s3cret", some "e@x", some "t1", some 1, some "n1", some "a todo app",
   [], [], some "https://eval.example/notify"⟩

def reqWrongSecretW : ReqData := { reqW with secret := some "wrong" }

def reqMissingEmailW : ReqData := { reqW with email := none }

def repoW : RepoH := ⟨"https://github.com/user/t1"⟩

def envW : PipeEnv := ⟨some repoW, none, some "HELLO", some 201, some "sha1", true⟩

def envNoRepoW : PipeEnv := { envW with repoResult := none }

def envPagesFailW : PipeEnv := { envW with pagesStatus := some 404 }

def reqR2W : ReqData := { reqW with round := some 2, nonce := some "n2" }

def envR2W : PipeEnv := ⟨some repoW, some "prev readme", some "HELLO", some 404, some "sha2", true⟩

def payloadC8W : Payload :=
  ⟨"e@x", "t1", 1, "n1", "https://github.com/user/t1", some "sha1",
   some "https://user.github.io/t1/"⟩

def payloadR1FailW : Payload :=
  ⟨"e@x", "t1", 1, "n1", "https://github.com/user/t1", some "sha1", none⟩

def payloadR2W : Payload :=
  ⟨"e@x", "t1", 2, "n2", "https://github.com/user/t1", some "sha2",
   some "https://user.github.io/t1/"⟩

def attNoDataW : Attachment := ⟨some "a.png", some "https://cdn.example/a.png"⟩

/-! Claim theorems. -/

/-- Claim C1: for every inbound request whose identity key is already in the
Ledger, the intake handler schedules no pipeline run, re-invokes the notifier
exactly once with the stored Round Outcome, and returns the duplicate-handled
response — for either outcome of that re-notification. -/
theorem c1_duplicate_renotified (cfg : Config) (ledger : Ledger) (notifyOk : Bool)
    (d : ReqData) (e t n : String) (r : Nat) (p : Payload)
    (hs : d.secret = cfg.user_secret) (he : d.email = some e) (ht : d.task = some t)
    (hr : d.round = some r) (hn : d.nonce = some n)
    (hdup : ledgerLookup ledger (mkKeyS e t r n) = some p) :
    receive_request cfg ledger notifyOk d =
      .ok ⟨.okNote "ok" "duplicate handled & re-notified",
           [Event.notifyCall d.evaluation_url p], false⟩ := by
  simp [receive_request, hs, he, ht, hr, hn, hdup]

theorem c1_duplicate_renotified_witness :
    receive_request cfgW ledgerW false reqW =
      .ok ⟨.okNote "ok" "duplicate handled & re-notified",
           [Event.notifyCall (some "https://eval.example/notify") payloadW], false⟩ :=
  c1_duplicate_renotified cfgW ledgerW false reqW "e@x" "t1" "n1" 1 payloadW
    rfl rfl rfl rfl rfl (by decide)

/-- Claim C2, as stated, is false: the handler validates nothing. With a valid
secret and `email` absent, `data['email']` at main.py:184 raises `KeyError`
out of the handler instead of returning a rejection. -/
theorem c2_counterexample :
    receive_request cfgW [] true reqMissingEmailW = .error "KeyError: email" := by
  rfl

/-- Claim C2, amended: only the secret is checked. With a valid secret, a
request missing any of `email`, `task`, `round`, `nonce` makes the handler
raise a `KeyError` (no caller-visible rejection), and a request missing only
`brief` is not rejected at all — it is accepted and scheduled. -/
theorem c2_amended (cfg : Config) (ledger : Ledger) (notifyOk : Bool) (d : ReqData)
    (hs : d.secret = cfg.user_secret) :
    ((d.email = none ∨ d.task = none ∨ d.round = none ∨ d.nonce = none) →
      ∃ msg, receive_request cfg ledger notifyOk d = .error msg)
    ∧ (∀ e t r n, d.email = some e → d.task = some t → d.round = some r →
        d.nonce = some n → d.brief = none →
        ledgerLookup ledger (mkKeyS e t r n) = none →
        receive_request cfg ledger notifyOk d =
          .ok ⟨.okNote "accepted" ("processing round " ++ toString r ++ " started"),
               [], true⟩) := by
  constructor
  · intro h
    rcases hme : d.email with _ | e
    · exact ⟨"KeyError: email", by simp [receive_request, hs, hme]⟩
    rcases hmt : d.task with _ | t
    · exact ⟨"KeyError: task", by simp [receive_request, hs, hme, hmt]⟩
    rcases hmr : d.round with _ | r
    · exact ⟨"KeyError: round", by simp [receive_request, hs, hme, hmt, hmr]⟩
    rcases hmn : d.nonce with _ | n
    · exact ⟨"KeyError: nonce", by simp [receive_request, hs, hme, hmt, hmr, hmn]⟩
    · simp_all
  · intro e t r n he ht hr hn _hb hmiss
    simp [receive_request, hs, he, ht, hr, hn, hmiss]

theorem c2_amended_witness :
    ∃ msg, receive_request cfgW [] false reqMissingEmailW = .error msg :=
  (c2_amended cfgW [] false reqMissingEmailW rfl).1 (Or.inl rfl)

/-- Claim C7: a request whose secret mismatches the configured one gets the
invalid-secret payload back, with no Ledger lookup (the result is the same for
every Ledger state), no events and no scheduled work. -/
theorem c7_invalid_secret (cfg : Config) (notifyOk : Bool) (d : ReqData)
    (h : d.secret ≠ cfg.user_secret) :
    ∀ ledger : Ledger, receive_request cfg ledger notifyOk d =
      .ok ⟨.errorResp "Invalid secret", [], false⟩ := by
  intro ledger
  simp [receive_request, h]

theorem c7_invalid_secret_witness :
    receive_request cfgW ledgerW true reqWrongSecretW =
      .ok ⟨.errorResp "Invalid secret", [], false⟩ :=
  c7_invalid_secret cfgW true reqWrongSecretW (by decide) ledgerW

/-- Claim C5, as stated, is false: the key construction neither rejects nor
escapes fields containing the `::` delimiter, and two distinct identity tuples
can collide on one key. -/
theorem c5_counterexample :
    mkKeyS "x::y" "z" 1 "n" = mkKeyS "x" "y::z" 1 "n" ∧
      ("x::y", "z", 1, "n") ≠ (("x" : String), ("y::z" : String), 1, ("n" : String)) := by
  decide

/-- Claim C5, amended: the key construction is injective only on tuples whose
`email` and `task` fields are free of the delimiter character `':'` (the
decimal `round` rendering never contains it, and the trailing `nonce` needs no
restriction); fields containing the delimiter are neither rejected nor
escaped, so outside that fragment distinct tuples can collide. -/
theorem c5_amended (e t n e' t' n' : String) (r r' : Nat)
    (he : ':' ∉ e.data) (he' : ':' ∉ e'.data)
    (ht : ':' ∉ t.data) (ht' : ':' ∉ t'.data)
    (h : mkKeyS e t r n = mkKeyS e' t' r' n') :
    e = e' ∧ t = t' ∧ r = r' ∧ n = n' := by
  have hd := congrArg String.data h
  rw [mkKeyS_data, mkKeyS_data] at hd
  obtain ⟨h1, h2⟩ := sep_append_inj he he' hd
  simp only [List.cons.injEq, true_and] at h2
  obtain ⟨h3, h4⟩ := sep_append_inj ht ht' h2
  simp only [List.cons.injEq, true_and] at h4
  obtain ⟨h5, h6⟩ := sep_append_inj (colon_not_mem_repr r) (colon_not_mem_repr r') h4
  simp only [List.cons.injEq, true_and] at h6
  refine ⟨String.toList_inj.mp h1, String.toList_inj.mp h3, ?_, String.toList_inj.mp h6⟩
  exact repr_inj (String.toList_inj.mp h5)

theorem c5_amended_witness :
    ("alice" : String) = "alice" ∧ ("t1" : String) = "t1" ∧ 1 = 1 ∧
      ("n1" : String) = "n1" :=
  c5_amended "alice" "t1" "n1" "alice" "t1" "n1" 1 1
    (by decide) (by decide) (by decide) (by decide) rfl

/-- Claim C4, as stated, is false: when the generator service succeeds with a
response consisting of exactly the sentinel `---README.md---`, both returned
documents have empty content. -/
theorem c4_counterexample :
    (generate_app_code lib0 (some "---README.md---") "a todo app" [] [] 1 none).files
      = [("index.html", ""), ("README.md", "")] := by
  decide

/-- Claim C4, amended: for every input and every generator-service outcome
(timeout, malformed or empty response included), `generate_app_code` returns
without raising, and its result is a non-empty artifact set consisting of a
primary document `index.html` and a summary document `README.md` — but their
contents are not guaranteed non-empty (for example a service response of
exactly the sentinel yields two empty documents). -/
theorem c4_amended (lib : PyLib) (serviceText : Option String) (brief : String)
    (attachments : List Attachment) (checks : List String) (round_num : Nat)
    (prev_readme : Option String) :
    ∃ c r, (generate_app_code lib serviceText brief attachments checks round_num
      prev_readme).files = [("index.html", c), ("README.md", r)] :=
  ⟨_, _, rfl⟩

/-- Claim C9: the files mapping returned by `generate_app_code` has exactly the
two keys `index.html` and `README.md`, in this order, for every input and
every generator response. -/
theorem c9_files_keys (lib : PyLib) (serviceText : Option String) (brief : String)
    (attachments : List Attachment) (checks : List String) (round_num : Nat)
    (prev_readme : Option String) :
    (generate_app_code lib serviceText brief attachments checks round_num
      prev_readme).files.map Prod.fst = ["index.html", "README.md"] :=
  rfl

/-- Claim C10: an attachment whose `url` is absent or does not start with
`data:`, or whose `data:` URI is malformed (no comma to split at, or a payload
on which base64 decoding raises), is skipped silently — it contributes no
decoded entry, and the attachments before and after it are processed exactly
as they would be without it. -/
theorem c10_skip_malformed (lib : PyLib) (pre post : List Attachment) (att : Attachment)
    (h : ¬strStartsWith (att.url.getD "") "data:"
       ∨ splitOnce (att.url.getD "") "," = none
       ∨ ∃ hd pl, splitOnce (att.url.getD "") "," = some (hd, pl)
           ∧ lib.b64decode pl = none) :
    decode_attachments lib (pre ++ att :: post) =
      decode_attachments lib pre ++ decode_attachments lib post := by
  have hnone : decodeOne lib att = none := by
    unfold decodeOne
    rcases h with h | h | ⟨hd, pl, hsp, hdec⟩
    · simp [h]
    · by_cases hs : strStartsWith (att.url.getD "") "data:" <;> simp [hs, h]
    · by_cases hs : strStartsWith (att.url.getD "") "data:" <;> simp [hs, hsp, hdec]
  unfold decode_attachments
  rw [List.filterMap_append]
  simp [List.filterMap_cons, hnone]

theorem c10_skip_malformed_witness :
    decode_attachments lib0 ([] ++ attNoDataW :: []) =
      decode_attachments lib0 [] ++ decode_attachments lib0 [] :=
  c10_skip_malformed lib0 [] [] attNoDataW (Or.inl (by decide))

/-- Claim C3: when repository acquisition fails on a job whose `task` and
`brief` are present, the pipeline attempts no commit, no publish call and no
notifier call, leaves the Ledger untouched, and ends in the aborted state. -/
theorem c3_fatal_short_circuit (cfg : Config) (lib : PyLib) (env : PipeEnv)
    (ledger : Ledger) (d : ReqData) (t b : String)
    (ht : d.task = some t) (hb : d.brief = some b) (hrepo : env.repoResult = none) :
    process_request cfg lib env ledger d = ⟨[], ledger, .aborted⟩ := by
  simp [process_request, ht, hb, hrepo]

theorem c3_fatal_short_circuit_witness :
    process_request cfgW lib0 envNoRepoW ledgerW reqW = ⟨[], ledgerW, .aborted⟩ :=
  c3_fatal_short_circuit cfgW lib0 envNoRepoW ledgerW reqW "t1" "a todo app"
    rfl rfl rfl

/-- Every event attempted for one saved attachment is a text or binary commit. -/
theorem commitAttachmentEvents_shape (a : SavedAtt) (e : Event)
    (h : e ∈ commitAttachmentEvents a) :
    (∃ s, e = .commitText s) ∨ (∃ s, e = .commitBinary s) := by
  unfold commitAttachmentEvents at h
  split at h <;> simp at h
  · exact Or.inl ⟨_, h⟩
  · rcases h with h | h
    · exact Or.inr ⟨_, h⟩
    · exact Or.inl ⟨_, h⟩

/-- The success branch of `process_request` (main.py:56-154), spelled out: the
value of a run whose `task`, `brief`, repository acquisition, `email` and
`nonce` all resolved. -/
def runBody (cfg : Config) (lib : PyLib) (env : PipeEnv) (ledger : Ledger) (d : ReqData)
    (task_id brief email nonce : String) (repo : RepoH) : ProcResult :=
  let round_num := d.round.getD 1
  let prev_readme := if round_num == 2 then env.readmeContents else none
  let gen := generate_app_code lib env.genResponse brief d.attachments d.checks
    round_num prev_readme
  let attEvents := if round_num == 1 then gen.attachments.flatMap commitAttachmentEvents else []
  let fileEvents := gen.files.map (fun fc => Event.commitText fc.1)
  let pages : List Event × Option String :=
    if round_num == 1 then
      ([Event.publishCall task_id],
       if enable_pages env.pagesStatus then some (ghPagesUrl cfg.username task_id)
       else none)
    else
      ([], some (ghPagesUrl cfg.username task_id))
  let preEvents := attEvents ++ fileEvents ++ [Event.commitText "LICENSE"] ++ pages.1
  let payload : Payload :=
    { email := email, task := task_id, round := round_num, nonce := nonce,
      repo_url := repo.html_url, commit_sha := env.latestSha, pages_url := pages.2 }
  let key := mkKeyS email task_id round_num nonce
  ⟨preEvents ++ [Event.notifyCall d.evaluation_url payload, Event.ledgerWrite key payload],
   ledgerInsert ledger key payload, .completed payload⟩

theorem pr_outcome_task_none (cfg : Config) (lib : PyLib) (env : PipeEnv)
    (ledger : Ledger) (d : ReqData) (ht : d.task = none) :
    (process_request cfg lib env ledger d).outcome = .raised "KeyError: task" := by
  simp [process_request, ht]

theorem pr_outcome_brief_none (cfg : Config) (lib : PyLib) (env : PipeEnv)
    (ledger : Ledger) (d : ReqData) (task_id : String)
    (ht : d.task = some task_id) (hb : d.brief = none) :
    (process_request cfg lib env ledger d).outcome = .aborted := by
  simp [process_request, ht, hb]

theorem pr_outcome_repo_none (cfg : Config) (lib : PyLib) (env : PipeEnv)
    (ledger : Ledger) (d : ReqData) (task_id brief : String)
    (ht : d.task = some task_id) (hb : d.brief = some brief)
    (hr : env.repoResult = none) :
    (process_request cfg lib env ledger d).outcome = .aborted := by
  simp [process_request, ht, hb, hr]

theorem pr_outcome_email_none (cfg : Config) (lib : PyLib) (env : PipeEnv)
    (ledger : Ledger) (d : ReqData) (task_id brief : String) (repo : RepoH)
    (ht : d.task = some task_id) (hb : d.brief = some brief)
    (hr : env.repoResult = some repo) (he : d.email = none) :
    (process_request cfg lib env ledger d).outcome = .raised "KeyError: email" := by
  simp [process_request, ht, hb, hr, he]

theorem pr_outcome_nonce_none (cfg : Config) (lib : PyLib) (env : PipeEnv)
    (ledger : Ledger) (d : ReqData) (task_id brief email : String) (repo : RepoH)
    (ht : d.task = some task_id) (hb : d.brief = some brief)
    (hr : env.repoResult = some repo) (he : d.email = some email)
    (hn : d.nonce = none) :
    (process_request cfg lib env ledger d).outcome = .raised "KeyError: nonce" := by
  simp [process_request, ht, hb, hr, he, hn]

theorem process_request_completed_eq (cfg : Config) (lib : PyLib) (env : PipeEnv)
    (ledger : Ledger) (d : ReqData) (task_id brief email nonce : String) (repo : RepoH)
    (ht : d.task = some task_id) (hb : d.brief = some brief)
    (hr : env.repoResult = some repo) (he : d.email = some email)
    (hn : d.nonce = some nonce) :
    process_request cfg lib env ledger d =
      runBody cfg lib env ledger d task_id brief email nonce repo := by
  simp [process_request, runBody, ht, hb, hr, he, hn]

/-- Claim C8: in every pipeline run that reaches dispatch (outcome
`completed p`), the trace ends with the notifier invocation immediately
followed by the single Ledger write, keyed by the identity tuple; no Ledger
write and no notifier call occurs earlier, and the Ledger is updated exactly
with that entry — all of this for every notifier outcome `env.notifyOk`. -/
theorem c8_ledger_write_after_notify (cfg : Config) (lib : PyLib) (env : PipeEnv)
    (ledger : Ledger) (d : ReqData) (p : Payload)
    (h : (process_request cfg lib env ledger d).outcome = .completed p) :
    ∃ pre,
      (process_request cfg lib env ledger d).events =
        pre ++ [Event.notifyCall d.evaluation_url p,
                Event.ledgerWrite (mkKeyS p.email p.task p.round p.nonce) p] ∧
      (∀ k q, Event.ledgerWrite k q ∉ pre) ∧
      (∀ u q, Event.notifyCall u q ∉ pre) ∧
      (process_request cfg lib env ledger d).ledger =
        ledgerInsert ledger (mkKeyS p.email p.task p.round p.nonce) p := by
  rcases hmt : d.task with _ | task
  · rw [pr_outcome_task_none cfg lib env ledger d hmt] at h; simp at h
  rcases hmb : d.brief with _ | brief
  · rw [pr_outcome_brief_none cfg lib env ledger d task hmt hmb] at h; simp at h
  rcases hmr : env.repoResult with _ | repo
  · rw [pr_outcome_repo_none cfg lib env ledger d task brief hmt hmb hmr] at h
    simp at h
  rcases hme : d.email with _ | email
  · rw [pr_outcome_email_none cfg lib env ledger d task brief repo hmt hmb hmr hme] at h
    simp at h
  rcases hmn : d.nonce with _ | nonce
  · rw [pr_outcome_nonce_none cfg lib env ledger d task brief email repo
      hmt hmb hmr hme hmn] at h
    simp at h
  rw [process_request_completed_eq cfg lib env ledger d task brief email nonce repo
    hmt hmb hmr hme hmn] at h ⊢
  simp only [runBody] at h ⊢
  simp only [ProcOutcome.completed.injEq] at h
  subst h
  refine ⟨_, rfl, ?_, ?_, rfl⟩
  · intro k q hmem
    cases hr1 : (d.round.getD 1 == 1) <;> simp [hr1, List.mem_flatMap] at hmem
    obtain ⟨a, -, ha⟩ := hmem
    rcases commitAttachmentEvents_shape a _ ha with ⟨s, hs⟩ | ⟨s, hs⟩ <;> cases hs
  · intro u q hmem
    cases hr1 : (d.round.getD 1 == 1) <;> simp [hr1, List.mem_flatMap] at hmem
    obtain ⟨a, -, ha⟩ := hmem
    rcases commitAttachmentEvents_shape a _ ha with ⟨s, hs⟩ | ⟨s, hs⟩ <;> cases hs

theorem c8_ledger_write_after_notify_witness :
    ∃ pre,
      (process_request cfgW lib0 envW [] reqW).events =
        pre ++ [Event.notifyCall (some "https://eval.example/notify") payloadC8W,
                Event.ledgerWrite (mkKeyS "e@x" "t1" 1 "n1") payloadC8W] ∧
      (∀ k q, Event.ledgerWrite k q ∉ pre) ∧
      (∀ u q, Event.notifyCall u q ∉ pre) ∧
      (process_request cfgW lib0 envW [] reqW).ledger =
        ledgerInsert [] (mkKeyS "e@x" "t1" 1 "n1") payloadC8W :=
  c8_ledger_write_after_notify cfgW lib0 envW [] reqW payloadC8W (by decide)

/-- Claim C6, as stated, is false: when round 1's Pages activation fails, the
round-1 outcome's `pages_url` is null, but a round-2 run for the same task
sets `pages_url` to the derived URL unconditionally — the two differ. -/
theorem c6_counterexample :
    (process_request cfgW lib0 envPagesFailW [] reqW).outcome =
        .completed payloadR1FailW ∧
      payloadR1FailW.pages_url = none ∧
      (process_request cfgW lib0 envR2W
          (process_request cfgW lib0 envPagesFailW [] reqW).ledger reqR2W).outcome =
        .completed payloadR2W ∧
      payloadR2W.pages_url ≠ payloadR1FailW.pages_url := by
  refine ⟨by decide, rfl, by decide, by decide⟩

/-- Claim C6, amended: on round 1, `pages_url` is the derived public URL
exactly when the activation call succeeded (else null), and the activation is
attempted; on any other round no activation is attempted, and `pages_url` is
set to the derived URL unconditionally — so it equals round 1's value only
when round 1's activation succeeded, and is non-null even where round 1's was
null. -/
theorem c6_amended (cfg : Config) (lib : PyLib) (env : PipeEnv) (ledger : Ledger)
    (d : ReqData) (p : Payload) (task_id : String) (ht : d.task = some task_id)
    (h : (process_request cfg lib env ledger d).outcome = .completed p) :
    (d.round.getD 1 = 1 →
      p.pages_url = (if enable_pages env.pagesStatus then
          some (ghPagesUrl cfg.username task_id) else none) ∧
      Event.publishCall task_id ∈ (process_request cfg lib env ledger d).events)
    ∧ (d.round.getD 1 ≠ 1 →
      p.pages_url = some (ghPagesUrl cfg.username task_id) ∧
      ∀ s, Event.publishCall s ∉ (process_request cfg lib env ledger d).events) := by
  rcases hmb : d.brief with _ | brief
  · rw [pr_outcome_brief_none cfg lib env ledger d task_id ht hmb] at h; simp at h
  rcases hmr : env.repoResult with _ | repo
  · rw [pr_outcome_repo_none cfg lib env ledger d task_id brief ht hmb hmr] at h
    simp at h
  rcases hme : d.email with _ | email
  · rw [pr_outcome_email_none cfg lib env ledger d task_id brief repo ht hmb hmr hme] at h
    simp at h
  rcases hmn : d.nonce with _ | nonce
  · rw [pr_outcome_nonce_none cfg lib env ledger d task_id brief email repo
      ht hmb hmr hme hmn] at h
    simp at h
  rw [process_request_completed_eq cfg lib env ledger d task_id brief email nonce repo
    ht hmb hmr hme hmn] at h ⊢
  simp only [runBody] at h ⊢
  simp only [ProcOutcome.completed.injEq] at h
  subst h
  constructor
  · intro hr1
    have hb1 : (d.round.getD 1 == 1) = true := beq_iff_eq.mpr hr1
    constructor
    · simp [hb1]
    · simp [hb1]
  · intro hr1
    have hb1 : (d.round.getD 1 == 1) = false := by
      simpa using hr1
    constructor
    · simp [hb1]
    · intro s hmem
      simp [hb1, List.mem_flatMap] at hmem

theorem c6_amended_witness :
    (reqR2W.round.getD 1 = 1 →
      payloadR2W.pages_url = (if enable_pages envR2W.pagesStatus then
          some (ghPagesUrl cfgW.username "t1") else none) ∧
      Event.publishCall "t1" ∈ (process_request cfgW lib0 envR2W [] reqR2W).events)
    ∧ (reqR2W.round.getD 1 ≠ 1 →
      payloadR2W.pages_url = some (ghPagesUrl cfgW.username "t1") ∧
      ∀ s, Event.publishCall s ∉ (process_request cfgW lib0 envR2W [] reqR2W).events) :=
  c6_amended cfgW lib0 envR2W [] reqR2W payloadR2W "t1" rfl (by decide)

end TDS
